import Mathlib

/-!
Verification of the AS3935 lightning-sensor service (`bin/user/as3935.py`).

The development shallowly embeds the service's core logic:

* `read_data` — the flush operation that turns the accumulated strike buffer
  into the `lightning_strikes` / `avg_distance` fields of an outgoing record
  and clears the buffer (`AS3935.read_data`, lines 188–203);
* `handle_interrupt` — the GPIO interrupt callback that classifies the
  interrupt reason and either adjusts the sensor or appends a strike event
  (`AS3935.handle_interrupt`, lines 217–234), together with `save_data`
  (lines 205–215);
* `init_schema_check` — the startup schema comparison (lines 139–150);
* `read_data_race` — the interleavings of a concurrent `self.data.append`
  with the three shared-buffer accesses inside `read_data`.

Python floats are modelled as rationals (`ℚ`); Python `None` and dictionary
fields are modelled explicitly so that an absent key and a key holding `None`
are distinguishable.  Fallible external calls (sensor reads, the database
write) are modelled as `Except` values supplied by an environment record.
-/

namespace AS3935

/-- The weewx unit-system constants (`weewx.US`, `weewx.METRIC`,
`weewx.METRICWX`): US = 0x01, METRIC = 0x10, METRICWX = 0x11. -/
def US : Int := 0x01

/-- The weewx metric unit-system constant. -/
def METRIC : Int := 0x10

/-- The weewx METRICWX unit-system constant. -/
def METRICWX : Int := 0x11

/-- A strike event as stored in `self.data`: the tuple
`(strike_ts, distance)` built at line 231. -/
abbrev StrikeEvent := Int × ℚ

/-- A Python value stored in a record field: `None`, an `int`, or a float
(modelled as `ℚ`). -/
inductive PyVal where
  | none : PyVal
  | int : Int → PyVal
  | num : ℚ → PyVal
  deriving DecidableEq, Repr

/-- The outgoing record (`pkt`), restricted to the keys the service touches.
Each field is an `Option`: `Option.none` means the key is absent from the
dictionary, `some v` means the key is present holding the Python value `v`.
The code inspects `usUnits` (an `int` when present) and writes
`avg_distance` and `lightning_strikes`. -/
structure Packet where
  usUnits : Option Int
  avg_distance : Option PyVal
  lightning_strikes : Option PyVal
  deriving DecidableEq, Repr

/-- Modelled from the spec: the km→mile factor used by the external
`weewx.units.convert` call (line 198).  The weewx library is an external
collaborator; the spec fixes the contract as the correct km→mile conversion
(10.0 km ↦ ≈ 6.2137 mile), i.e. one kilometer is 1/1.609344 miles. -/
def milePerKm : ℚ := 1000000 / 1609344

/-- Modelled from the spec: `weewx.units.convert((avg, 'km', 'group_distance'),
'mile')[0]` for the external weewx library.  A numeric value is multiplied by
the km→mile factor; a Python `None` value passes through unchanged (weewx
conversions preserve `None`, and the spec requires the empty-buffer flush to
carry no numeric average even on a US record). -/
def convert_km_mile (v : Option ℚ) : Option ℚ :=
  v.map (fun q => q * milePerKm)

/-- The summation loop of `read_data` (lines 192–194):
`avg = 0; for x in self.data: avg += x[1]`. -/
def sumDistances (data : List StrikeEvent) : ℚ :=
  data.foldl (fun a x => a + x.2) 0

/-- The average computed at lines 189–195: `None` when the buffer is empty,
otherwise the summed distances divided by the count. -/
def avg_of (data : List StrikeEvent) : Option ℚ :=
  if data.length ≠ 0 then some (sumDistances data / (data.length : ℚ))
  else Option.none

/-- Wrap the final value of the Python variable `avg` as the record value
stored under `avg_distance` (line 200). -/
def pyOfNum : Option ℚ → PyVal
  | some q => PyVal.num q
  | Option.none => PyVal.none

/-- `AS3935.read_data` (lines 188–203): compute the count and average of the
buffered strikes, convert the average from kilometers to miles when the
record carries `usUnits == weewx.US`, write `avg_distance` and
`lightning_strikes` onto the record, and clear the buffer.  Returns the
updated record together with the new value of `self.data`. -/
def read_data (pkt : Packet) (data : List StrikeEvent) :
    Packet × List StrikeEvent :=
  let count : Nat := data.length
  let avg : Option ℚ := avg_of data
  let avg2 : Option ℚ :=
    if pkt.usUnits = some US then convert_km_mile avg else avg
  ({ pkt with
      avg_distance := some (pyOfNum avg2),
      lightning_strikes := some (PyVal.int (count : Int)) },
   [])

/-- Summing with `foldl` starting from accumulator `a` adds `a` to the sum of
the mapped distances. -/
theorem foldl_add_snd (a : ℚ) (l : List StrikeEvent) :
    l.foldl (fun a x => a + x.2) a = a + (l.map Prod.snd).sum := by
  induction l generalizing a with
  | nil => simp
  | cons x xs ih => simp [List.foldl, ih]; ring

/-- The summation loop of `read_data` computes the mathematical sum of the
buffered distances. -/
theorem sumDistances_eq (data : List StrikeEvent) :
    sumDistances data = (data.map Prod.snd).sum := by
  simp [sumDistances, foldl_add_snd]

/-- Claim C1: for every sequence of strike events appended between two
flushes, `read_data` sets the record's strike count to the number of appended
events and, when that count is positive, sets the average distance to the
arithmetic mean of the appended events' distances in kilometers, for a metric
record. -/
theorem C1_flush_count_and_mean (pkt : Packet) (data : List StrikeEvent)
    (hm : pkt.usUnits = some METRIC) :
    (read_data pkt data).1.lightning_strikes
        = some (PyVal.int (data.length : Int)) ∧
    (0 < data.length →
      (read_data pkt data).1.avg_distance
        = some (PyVal.num ((data.map Prod.snd).sum / (data.length : ℚ)))) := by
  have hne : pkt.usUnits ≠ some US := by
    rw [hm]
    simp [METRIC, US]
  constructor
  · simp [read_data]
  · intro hlen
    simp [read_data, avg_of, hne, Nat.pos_iff_ne_zero.mp hlen, pyOfNum,
      sumDistances_eq]

/-- Claim C1 witness: three strikes at 2.0, 4.0, 6.0 km on a metric record
flush to count 3 and average 4.0 km. -/
theorem C1_witness :
    (⟨some METRIC, Option.none, Option.none⟩ : Packet).usUnits = some METRIC ∧
    (read_data ⟨some METRIC, Option.none, Option.none⟩
        [(10, 2), (11, 4), (12, 6)]).1.lightning_strikes
      = some (PyVal.int 3) ∧
    (read_data ⟨some METRIC, Option.none, Option.none⟩
        [(10, 2), (11, 4), (12, 6)]).1.avg_distance
      = some (PyVal.num 4) := by
  have h := C1_flush_count_and_mean ⟨some METRIC, Option.none, Option.none⟩
    [(10, 2), (11, 4), (12, 6)] rfl
  refine ⟨rfl, ?_, ?_⟩
  · rw [h.1]; decide
  · rw [h.2 (by decide)]
    norm_num

/-- A command the interrupt handler issues to the external sensor
(`self.sensor.raise_noise_floor()` at line 223,
`self.sensor.set_mask_disturber(True)` at line 226). -/
inductive SensorCmd where
  | raiseNoiseFloor : SensorCmd
  | setMaskDisturber : Bool → SensorCmd
  deriving DecidableEq, Repr

/-- The record written to the lightning database by `save_data`
(lines 208–210): `{'dateTime': strike_ts, 'usUnits': weewx.METRIC,
'distance': distance}`. -/
structure LightningRec where
  dateTime : Int
  usUnits : Int
  distance : ℚ
  deriving DecidableEq, Repr

/-- The external world as seen by one invocation of the interrupt handler:
the outcome of `self.sensor.get_interrupt()` (line 220), the wall clock
`time.time()` (line 228), the outcome of `self.sensor.get_distance()`
(line 229), the configured `data_binding` (line 131), and the outcome of the
database write `dbm.addRecord(rec)` (lines 211–215, the manager open and the
write collapsed into one fallible external call). -/
structure Env where
  getInterrupt : Except String Int
  now : ℚ
  getDistance : Except String ℚ
  data_binding : Option String
  addRecord : Except String Unit
  deriving Repr

/-- Python's `int()` truncation toward zero, applied to `time.time()` at
line 228. -/
def pyInt (q : ℚ) : Int := Int.tdiv q.num (q.den : Int)

/-- `AS3935.save_data` (lines 205–215): a no-op when no `data_binding` is
configured; otherwise one attempt to write the metric-tagged strike record,
which either succeeds or raises.  Returns the list of attempted writes and
the exception, if any. -/
def save_data (env : Env) (ts : Int) (dist : ℚ) :
    List LightningRec × Option String :=
  match env.data_binding with
  | Option.none => ([], Option.none)
  | some _ =>
    let r : LightningRec := ⟨ts, METRIC, dist⟩
    match env.addRecord with
    | Except.ok _ => ([r], Option.none)
    | Except.error e => ([r], some e)

/-- The outcome of one interrupt delivery: the buffer `self.data` after the
handler, the sensor commands issued, the database writes attempted, and the
exception caught by the handler's `except` clause (`Option.none` when the
body completed normally). -/
structure HResult where
  data : List StrikeEvent
  cmds : List SensorCmd
  attempts : List LightningRec
  err : Option String
  deriving DecidableEq, Repr

/-- The `try` body of `AS3935.handle_interrupt` (lines 218–232), with state
threaded explicitly so that effects performed before an exception persist:
reason 0x01 raises the noise floor, 0x04 masks disturbers, 0x08 appends the
strike `(int(time.time()), get_distance())` to the buffer and then calls
`save_data`; any other reason falls through all branches.  The `err` field
carries the exception that escapes the body, if any. -/
def handle_interrupt_body (env : Env) (data : List StrikeEvent) : HResult :=
  match env.getInterrupt with
  | Except.error e => ⟨data, [], [], some e⟩
  | Except.ok reason =>
    if reason = 0x01 then ⟨data, [SensorCmd.raiseNoiseFloor], [], Option.none⟩
    else if reason = 0x04 then
      ⟨data, [SensorCmd.setMaskDisturber true], [], Option.none⟩
    else if reason = 0x08 then
      let strike_ts : Int := pyInt env.now
      match env.getDistance with
      | Except.error e => ⟨data, [], [], some e⟩
      | Except.ok distance =>
        let data2 := data ++ [(strike_ts, distance)]
        let sv := save_data env strike_ts distance
        ⟨data2, [], sv.1, sv.2⟩
    else ⟨data, [], [], Option.none⟩

/-- `AS3935.handle_interrupt` (lines 217–234): the body wrapped in
`try/except Exception`, so the handler always returns normally — its result
type has no error channel; the caught exception is only logged.  Returns the
buffer, the sensor commands issued, and the database writes attempted. -/
def handle_interrupt (env : Env) (data : List StrikeEvent) :
    List StrikeEvent × List SensorCmd × List LightningRec :=
  let r := handle_interrupt_body env data
  (r.data, r.cmds, r.attempts)

/-- Claim C2: classification of interrupt reasons.  Reason 0x01 (noise too
high) raises the sensor's noise floor and appends nothing; reason 0x04
(disturber) enables disturber masking and appends nothing; reason 0x08
(strike) appends exactly one event carrying the sensor's distance reading
and the wall clock truncated to integer seconds, and issues no sensor
command; any other reason changes neither the buffer nor the sensor
configuration. -/
theorem C2_interrupt_classification (env : Env) (data : List StrikeEvent)
    (r : Int) (hr : env.getInterrupt = Except.ok r) :
    (r = 0x01 →
      handle_interrupt env data = (data, [SensorCmd.raiseNoiseFloor], [])) ∧
    (r = 0x04 →
      handle_interrupt env data
        = (data, [SensorCmd.setMaskDisturber true], [])) ∧
    (r = 0x08 → ∀ d : ℚ, env.getDistance = Except.ok d →
      (handle_interrupt env data).1 = data ++ [(pyInt env.now, d)] ∧
      (handle_interrupt env data).2.1 = []) ∧
    (r ≠ 0x01 → r ≠ 0x04 → r ≠ 0x08 →
      handle_interrupt env data = (data, [], [])) := by
  refine ⟨?_, ?_, ?_, ?_⟩
  · intro h1
    subst h1
    simp [handle_interrupt, handle_interrupt_body, hr]
  · intro h4
    subst h4
    simp [handle_interrupt, handle_interrupt_body, hr]
  · intro h8 d hd
    subst h8
    simp [handle_interrupt, handle_interrupt_body, hr, hd]
  · intro h1 h4 h8
    simp [handle_interrupt, handle_interrupt_body, hr, h1, h4, h8]

/-- Claim C2 witness: a strike interrupt at wall clock 1000 with distance
reading 5 km appends exactly the event `(1000, 5)`. -/
theorem C2_witness :
    (⟨Except.ok 0x08, 1000, Except.ok 5, Option.none, Except.ok ()⟩
        : Env).getInterrupt = Except.ok 0x08 ∧
    (handle_interrupt
        ⟨Except.ok 0x08, 1000, Except.ok 5, Option.none, Except.ok ()⟩
        []).1 = [(1000, 5)] ∧
    (handle_interrupt
        ⟨Except.ok 0x08, 1000, Except.ok 5, Option.none, Except.ok ()⟩
        []).2.1 = [] := by
  have h := (C2_interrupt_classification
    ⟨Except.ok 0x08, 1000, Except.ok 5, Option.none, Except.ok ()⟩
    [] 0x08 rfl).2.2.1 rfl 5 rfl
  refine ⟨rfl, ?_, h.2⟩
  rw [h.1]
  decide

/-- Claim C6: a sensor-read exception during strike handling is swallowed —
when `get_distance` raises, the handler still returns normally with the
buffer unchanged, no sensor command, no database write attempt, and the
exception is the one caught (and logged) by the `except` clause. -/
theorem C6_sensor_read_failure_swallowed (env : Env) (data : List StrikeEvent)
    (e : String) (hr : env.getInterrupt = Except.ok 0x08)
    (hd : env.getDistance = Except.error e) :
    handle_interrupt env data = (data, [], []) ∧
    (handle_interrupt_body env data).err = some e := by
  constructor
  · simp [handle_interrupt, handle_interrupt_body, hr, hd]
  · simp [handle_interrupt_body, hr, hd]

/-- Claim C6 witness: a failing distance read on a strike interrupt leaves
an empty buffer empty and surfaces no exception from the handler. -/
theorem C6_witness :
    handle_interrupt
        ⟨Except.ok 0x08, 1000, Except.error "bus failure", Option.none,
          Except.ok ()⟩ [(1, 2)] = ([(1, 2)], [], []) ∧
    (handle_interrupt_body
        ⟨Except.ok 0x08, 1000, Except.error "bus failure", Option.none,
          Except.ok ()⟩ [(1, 2)]).err = some "bus failure" :=
  C6_sensor_read_failure_swallowed
    ⟨Except.ok 0x08, 1000, Except.error "bus failure", Option.none,
      Except.ok ()⟩ [(1, 2)] "bus failure" rfl rfl

/-- Claim C7: when the persistence write raises on a strike interrupt, the
in-memory accumulation still succeeds — the event is in the buffer after the
handler returns — exactly one write was attempted (no retry), and the
exception was swallowed by the handler. -/
theorem C7_persist_failure_keeps_event (env : Env) (data : List StrikeEvent)
    (d : ℚ) (e : String) (b : String)
    (hr : env.getInterrupt = Except.ok 0x08)
    (hd : env.getDistance = Except.ok d)
    (hb : env.data_binding = some b)
    (hw : env.addRecord = Except.error e) :
    (handle_interrupt env data).1 = data ++ [(pyInt env.now, d)] ∧
    (handle_interrupt env data).2.2 = [⟨pyInt env.now, METRIC, d⟩] ∧
    (handle_interrupt_body env data).err = some e := by
  refine ⟨?_, ?_, ?_⟩ <;>
    simp [handle_interrupt, handle_interrupt_body, save_data, hr, hd, hb, hw]

/-- Claim C7 witness: with a configured binding and a failing database
write, the strike event `(2000, 7)` still lands in the buffer and exactly
one write was attempted. -/
theorem C7_witness :
    (handle_interrupt
        ⟨Except.ok 0x08, 2000, Except.ok 7, some "lightning_binding",
          Except.error "disk full"⟩ []).1 = [(2000, 7)] ∧
    (handle_interrupt
        ⟨Except.ok 0x08, 2000, Except.ok 7, some "lightning_binding",
          Except.error "disk full"⟩ []).2.2.length = 1 ∧
    (handle_interrupt_body
        ⟨Except.ok 0x08, 2000, Except.ok 7, some "lightning_binding",
          Except.error "disk full"⟩ []).err = some "disk full" := by
  have h := C7_persist_failure_keeps_event
    ⟨Except.ok 0x08, 2000, Except.ok 7, some "lightning_binding",
      Except.error "disk full"⟩ [] 7 "disk full" "lightning_binding"
    rfl rfl rfl rfl
  refine ⟨?_, ?_, h.2.2⟩
  · rw [h.1]; decide
  · rw [h.2.1]; rfl

/-- Claim C4 as stated is false at the empty buffer: `read_data` executes
`pkt['avg_distance'] = avg` unconditionally (line 200), so on an empty flush
the `avg_distance` key is present on the record holding Python `None` — it
is not absent. -/
theorem C4_counterexample :
    (read_data ⟨some METRIC, Option.none, Option.none⟩ []).1.lightning_strikes
      = some (PyVal.int 0) ∧
    (read_data ⟨some METRIC, Option.none, Option.none⟩ []).1.avg_distance
      = some PyVal.none ∧
    (read_data ⟨some METRIC, Option.none, Option.none⟩ []).1.avg_distance
      ≠ Option.none := by
  decide

/-- Claim C4 amended: `read_data` always writes both keys; on an empty
buffer the strike count is 0 and `avg_distance` is present holding a null
(`None`) value; in general `avg_distance` holds the null value exactly when
the strike count is 0, and a numeric value otherwise. -/
theorem C4_amended_fields (pkt : Packet) (data : List StrikeEvent) :
    (read_data pkt data).1.lightning_strikes
      = some (PyVal.int (data.length : Int)) ∧
    ((read_data pkt data).1.avg_distance).isSome = true ∧
    ((read_data pkt data).1.avg_distance = some PyVal.none
      ↔ data.length = 0) := by
  refine ⟨by simp [read_data], by simp [read_data], ?_⟩
  by_cases hl : data.length = 0
  · simp [read_data, avg_of, hl, pyOfNum, convert_km_mile]
  · by_cases hu : pkt.usUnits = some US <;>
      simp [read_data, avg_of, hl, hu, pyOfNum, convert_km_mile]

/-- Claim C5: on a flush with a positive count, a record tagged with the US
unit system receives the km→mile conversion of the computed mean, while a
record tagged metric receives the kilometer mean unchanged. -/
theorem C5_unit_conversion (pkt : Packet) (data : List StrikeEvent)
    (h : 0 < data.length) :
    (pkt.usUnits = some US →
      (read_data pkt data).1.avg_distance
        = some (PyVal.num
            (((data.map Prod.snd).sum / (data.length : ℚ)) * milePerKm))) ∧
    (pkt.usUnits = some METRIC →
      (read_data pkt data).1.avg_distance
        = some (PyVal.num ((data.map Prod.snd).sum / (data.length : ℚ)))) := by
  have hl : data.length ≠ 0 := Nat.pos_iff_ne_zero.mp h
  constructor
  · intro hu
    simp [read_data, avg_of, hl, hu, pyOfNum, convert_km_mile, sumDistances_eq]
  · intro hm
    have hne : pkt.usUnits ≠ some US := by
      rw [hm]
      simp [METRIC, US]
    simp [read_data, avg_of, hl, hne, pyOfNum, sumDistances_eq]

/-- Claim C5 witness: a single strike at 10.0 km flushes to
78125/12573 ≈ 6.2137 miles on a US record and to 10.0 km unchanged on a
metric record. -/
theorem C5_witness :
    (read_data ⟨some US, Option.none, Option.none⟩ [(0, 10)]).1.avg_distance
      = some (PyVal.num (78125 / 12573)) ∧
    (read_data ⟨some METRIC, Option.none, Option.none⟩
        [(0, 10)]).1.avg_distance
      = some (PyVal.num 10) := by
  constructor
  · have h := (C5_unit_conversion ⟨some US, Option.none, Option.none⟩
      [(0, 10)] (by decide)).1 rfl
    rw [h]
    simp only [Option.some.injEq, PyVal.num.injEq, milePerKm]
    norm_num
  · have h := (C5_unit_conversion ⟨some METRIC, Option.none, Option.none⟩
      [(0, 10)] (by decide)).2 rfl
    rw [h]
    norm_num

/-- Claim C8: flushing resets the accumulator — `read_data` leaves the
buffer empty, so a second flush with no intervening appends reports a strike
count of 0. -/
theorem C8_flush_resets (pkt pkt2 : Packet) (data : List StrikeEvent) :
    (read_data pkt data).2 = [] ∧
    (read_data pkt2 (read_data pkt data).2).1.lightning_strikes
      = some (PyVal.int 0) := by
  constructor
  · rfl
  · simp [read_data]

/-- Claim C10: the km→mile conversion is applied only when the record's
`usUnits` key is present and equal to `weewx.US`; a record without the key,
or tagged with any other system (METRIC, METRICWX, …), receives the computed
kilometer mean unchanged. -/
theorem C10_no_conversion_unless_US (pkt : Packet) (data : List StrikeEvent)
    (h : 0 < data.length) (hu : pkt.usUnits ≠ some US) :
    (read_data pkt data).1.avg_distance
      = some (PyVal.num ((data.map Prod.snd).sum / (data.length : ℚ))) := by
  have hl : data.length ≠ 0 := Nat.pos_iff_ne_zero.mp h
  simp [read_data, avg_of, hl, hu, pyOfNum, sumDistances_eq]

/-- Claim C10 witness: a METRICWX record and a record with no `usUnits` key
both flush a single 4.0 km strike to an unconverted mean of 4.0. -/
theorem C10_witness :
    (read_data ⟨some METRICWX, Option.none, Option.none⟩
        [(0, 4)]).1.avg_distance = some (PyVal.num 4) ∧
    (read_data ⟨Option.none, Option.none, Option.none⟩
        [(0, 4)]).1.avg_distance = some (PyVal.num 4) := by
  constructor
  · have h := C10_no_conversion_unless_US
      ⟨some METRICWX, Option.none, Option.none⟩ [(0, 4)] (by decide)
      (by simp [METRICWX, US])
    rw [h]
    norm_num
  · have h := C10_no_conversion_unless_US
      ⟨Option.none, Option.none, Option.none⟩ [(0, 4)] (by decide)
      (by simp)
    rw [h]
    norm_num

/-- One flush of `read_data` interleaved with a single concurrent
`self.data.append(e)` from the interrupt context.  `read_data` touches the
shared buffer at three atomic points: A, the length read
`count = len(self.data)` (line 190); B, the summation loop's traversal of
`self.data` (lines 193–194, skipped when `count` is 0); and C, the
assignment `self.data = []` (line 203).  The code takes no lock, so under
the interpreter's bytecode-level atomicity the append can land at four
positions: `k = 0` before A, `k = 1` between A and B, `k = 2` between B and
C, and `k = 3` after C.  The buffer object is shared, so the loop at B sees
the append whenever it happened earlier (`k ≤ 1`), while the length at A
sees it only for `k = 0`; the assignment at C replaces whatever list the
append went into. -/
def read_data_race (pkt : Packet) (d0 : List StrikeEvent) (e : StrikeEvent)
    (k : Fin 4) : Packet × List StrikeEvent :=
  let atLen : List StrikeEvent := if k.val = 0 then d0 ++ [e] else d0
  let count : Nat := atLen.length
  let atLoop : List StrikeEvent := if k.val ≤ 1 then d0 ++ [e] else d0
  let avg : Option ℚ :=
    if count ≠ 0 then some (sumDistances atLoop / (count : ℚ))
    else Option.none
  let avg2 : Option ℚ :=
    if pkt.usUnits = some US then convert_km_mile avg else avg
  ({ pkt with
      avg_distance := some (pyOfNum avg2),
      lightning_strikes := some (PyVal.int (count : Int)) },
   if k.val = 3 then [e] else [])

/-- Sanity check of the race model: an append that completes before the
flush's first buffer access is the sequential append-then-flush. -/
theorem read_data_race_zero (pkt : Packet) (d0 : List StrikeEvent)
    (e : StrikeEvent) :
    read_data_race pkt d0 e 0 = read_data pkt (d0 ++ [e]) := by
  simp [read_data_race, read_data, avg_of]

/-- Sanity check of the race model: an append that starts after the flush's
buffer clear is the sequential flush-then-append. -/
theorem read_data_race_three (pkt : Packet) (d0 : List StrikeEvent)
    (e : StrikeEvent) :
    read_data_race pkt d0 e 3
      = ((read_data pkt d0).1, (read_data pkt d0).2 ++ [e]) := by
  have h3 : ((3 : Fin 4) : ℕ) = 3 := rfl
  by_cases hl : d0.length = 0
  · by_cases hu : pkt.usUnits = some US <;>
      simp [read_data_race, read_data, avg_of, hl, hu, h3]
  · by_cases hu : pkt.usUnits = some US <;>
      simp [read_data_race, read_data, avg_of, hl, hu, h3]

/-- Claim C3 fails on the code: with an empty buffer, an append interleaved
between the averaging loop and the `self.data = []` assignment (position
`k = 2`) is lost — the flushing record reports 0 strikes and the buffer is
left empty, so the event is counted in neither the flushing summary nor the
next one.  The claim requires it to be counted in exactly one. -/
theorem C3_lost_update_at_clear :
    (read_data_race ⟨some METRIC, Option.none, Option.none⟩ [] (5, 3)
        2).1.lightning_strikes = some (PyVal.int 0) ∧
    (read_data_race ⟨some METRIC, Option.none, Option.none⟩ [] (5, 3)
        2).2 = [] ∧
    (read_data ⟨some METRIC, Option.none, Option.none⟩
        []).1.lightning_strikes = some (PyVal.int 0) := by
  decide

/-- The in-memory column names of the lightning schema
(`user.as3935.schema`, lines 92–94). -/
def schema : List (String × String) :=
  [("dateTime", "INTEGER NOT NULL PRIMARY KEY"),
   ("usUnits", "INTEGER NOT NULL"),
   ("distance", "REAL")]

/-- The startup schema check of `AS3935.__init__` (lines 139–150): when a
`data_binding` is configured, compare the columns of the persisted table
(`dbcol`) against the first components of the configured in-memory schema
(`memcol`), raising when they differ; when no binding is configured the
check is skipped entirely. -/
def init_schema_check (data_binding : Option String) (dbcol : List String)
    (dbm_schema : List (String × String)) : Except String Unit :=
  match data_binding with
  | Option.none => Except.ok ()
  | some _ =>
    let memcol := dbm_schema.map Prod.fst
    if dbcol ≠ memcol then Except.error "as3935: schema mismatch"
    else Except.ok ()

/-- Claim C9: with a persistence binding configured, initialization raises
exactly when the persisted table's columns differ from the in-memory
schema's column names; with matching columns, or with no binding configured,
no such exception is raised.  For the repository's own lightning schema the
expected column list is `dateTime`, `usUnits`, `distance`. -/
theorem C9_schema_check (b : String) (dbcol : List String)
    (sch : List (String × String)) :
    (init_schema_check (some b) dbcol sch = Except.ok ()
      ↔ dbcol = sch.map Prod.fst) ∧
    init_schema_check Option.none dbcol sch = Except.ok () ∧
    (init_schema_check (some b) dbcol schema = Except.ok ()
      ↔ dbcol = ["dateTime", "usUnits", "distance"]) := by
  refine ⟨?_, rfl, ?_⟩
  · by_cases hc : dbcol = sch.map Prod.fst <;> simp [init_schema_check, hc]
  · by_cases hc : dbcol = ["dateTime", "usUnits", "distance"] <;>
      simp [init_schema_check, schema, hc]

end AS3935
